import Mathlib

/-!
Shallow embedding of the non-destructive image-processing pipeline of the
`task1/resolve` application (domain models, Pillow-backed pixel operations,
histogram service and the `ImageService` state machine), together with
theorems checking the specification's claims about it.

Conventions of the embedding:
* a numpy array that is 2-D (grayscale) or 3-D (H×W×C) is modelled by
  `NDRaster`; a 2-D array is a `Mat Nat` of samples, a 3-D array is a
  `Mat (Fin c → Nat)` of channel vectors;
* Python floats are modelled by exact rationals `ℚ`; `astype(np.uint8)`
  after `np.clip(·, 0, 255)` is modelled by `clampTrunc` (truncation
  toward zero, which on the clipped range is the floor);
* code that raises is modelled with `Except Err`; the service methods that
  catch every exception and return a boolean return `Bool × ServiceState`.
-/

namespace CVTech

/-- A rectangular pixel grid with `h` rows and `w` columns (the first two
axes of a numpy array). -/
structure Mat (α : Type) where
  h : Nat
  w : Nat
  px : Fin h → Fin w → α

/-- Package a `Mat` as nested sigma data, to derive decidable equality. -/
def Mat.toSigma (A : Mat α) : Σ h : Nat, Σ w : Nat, Fin h → Fin w → α :=
  ⟨A.h, A.w, A.px⟩

instance [DecidableEq α] : DecidableEq (Mat α) := fun A B =>
  decidable_of_iff (A.toSigma = B.toSigma)
    ⟨fun h => by
      cases A; cases B
      simp only [Mat.toSigma] at h
      injection h with h1 h2
      subst h1
      have h2' := eq_of_heq h2
      injection h2' with h3 h4
      subst h3
      have h4' := eq_of_heq h4
      subst h4'
      rfl,
     fun h => by rw [h]⟩

instance {ε α : Type} [DecidableEq ε] [DecidableEq α] : DecidableEq (Except ε α) :=
  fun x y =>
  match x, y with
  | .ok v, .ok w => decidable_of_iff (v = w) (by rw [Except.ok.injEq])
  | .error v, .error w => decidable_of_iff (v = w) (by rw [Except.error.injEq])
  | .ok _, .error _ => isFalse (fun h => by injection h)
  | .error _, .ok _ => isFalse (fun h => by injection h)

/-- Pointwise map over a grid (a numpy elementwise operation). -/
def Mat.map (f : α → β) (A : Mat α) : Mat β :=
  ⟨A.h, A.w, fun i j => f (A.px i j)⟩

/-- One counterclockwise quarter turn: `np.rot90(A, k=1)`, so that
`(rot90 A).px i j = A.px j (A.w - 1 - i)` with the dimensions swapped. -/
def Mat.rot90 (A : Mat α) : Mat α :=
  ⟨A.w, A.h, fun i j => A.px j i.rev⟩

/-- A raster as held by the application: a 2-D (grayscale) numpy array of
8-bit samples, or a 3-D numpy array with `c` channels per pixel. -/
inductive NDRaster where
  | g2 (m : Mat Nat)
  | c3 (c : Nat) (m : Mat (Fin c → Nat))

instance : DecidableEq NDRaster := fun r s => by
  cases r with
  | g2 m =>
    cases s with
    | g2 m' => exact decidable_of_iff (m = m') (by rw [NDRaster.g2.injEq])
    | c3 c' m' => exact isFalse (fun h => by injection h)
  | c3 c m =>
    cases s with
    | g2 m' => exact isFalse (fun h => by injection h)
    | c3 c' m' =>
      by_cases hc : c = c'
      · subst hc
        exact decidable_of_iff (m = m') (by rw [NDRaster.c3.injEq]; simp)
      · exact isFalse (fun h => by
          rw [NDRaster.c3.injEq] at h
          exact hc h.1)

/-- Whether `len(data.shape) == 2` holds for the raster. -/
def NDRaster.is2d : NDRaster → Bool
  | .g2 _ => true
  | .c3 _ _ => false

/-- Number of pixels (`width×height`) of the raster. -/
def NDRaster.pixelCount : NDRaster → Nat
  | .g2 m => m.h * m.w
  | .c3 _ m => m.h * m.w

/-- `np.rot90` on a 2-D or 3-D array rotates the first two axes. -/
def NDRaster.rot90 : NDRaster → NDRaster
  | .g2 m => .g2 m.rot90
  | .c3 c m => .c3 c m.rot90

/-! ### Sample-level arithmetic

`clampTrunc` models `np.clip(x, 0, 255).astype(np.uint8)` (and likewise the
clipping plus C truncation that Pillow's `Image.blend` performs on each
sample): the value is clamped to `[0, 255]` and then truncated. -/

/-- Clamp a rational sample value to `[0, 255]` and truncate to an 8-bit
integer. On the clipped range truncation toward zero equals the floor. -/
def clampTrunc (q : ℚ) : Nat := (⌊min q 255⌋).toNat

/-- Grayscale luma used by `convert_to_grayscale`:
`np.dot(rgb, [0.2989, 0.5870, 0.1140]).astype(np.uint8)` (the `astype`
truncates; the weights sum to 0.9999, so the result is below 255). -/
def npLuma (r g b : Nat) : Nat := (2989 * r + 5870 * g + 1140 * b) / 10000

/-- Pillow's RGB→L conversion (used inside `ImageEnhance.Contrast` and
`ImageEnhance.Color`): `L = (R*19595 + G*38470 + B*7471 + 0x8000) >> 16`. -/
def pilL (r g b : Nat) : Nat := (19595 * r + 38470 * g + 7471 * b + 32768) / 65536

/-- Channel `k` of a pixel of a 3-D raster (0 outside the channel range;
only used at channel indices below the raster's channel count). -/
def chanAt {c : Nat} (v : Fin c → Nat) (k : Nat) : Nat :=
  if h : k < c then v ⟨k, h⟩ else 0

/-- Pillow L value of one pixel, computed from its first three channels. -/
def pilLpx {c : Nat} (v : Fin c → Nat) : ℚ :=
  (pilL (chanAt v 0) (chanAt v 1) (chanAt v 2) : ℚ)

/-- Mean sample value of a 2-D raster (`np.mean`), as an exact rational;
for an empty raster the rational division yields 0. -/
def matMeanQ (m : Mat Nat) : ℚ :=
  (∑ i : Fin m.h, ∑ j : Fin m.w, (m.px i j : ℚ)) / ((m.h : ℚ) * (m.w : ℚ))

/-- The mean used by Pillow's `ImageEnhance.Contrast`:
`int(ImageStat.Stat(image.convert("L")).mean[0] + 0.5)`. -/
def pilMeanL {c : Nat} (m : Mat (Fin c → Nat)) : ℚ :=
  ((⌊(∑ i : Fin m.h, ∑ j : Fin m.w, pilLpx (m.px i j)) / ((m.h : ℚ) * (m.w : ℚ)) + 1/2⌋).toNat : ℚ)

/-! ### The pixel operations of `PillowImageProcessor`

Each operation mirrors `adapters/image_processor.py`.  The 2-D branches are
the explicit numpy formulas of the source; the 3-D branches model the
Pillow `ImageEnhance` enhancers the source delegates to (per-sample blend
against a degenerate image, alpha channel preserved); a 3-D raster whose
channel count is not 3 or 4 cannot be converted to a PIL image, which the
source surfaces as a raised exception, modelled as `Except.error`. -/

inductive Err where
  | unsupportedShape
  | unsupportedAngle
deriving DecidableEq

namespace PillowImageProcessor

/-- Total version of the grayscale conversion (meaningful on the shapes the
guarded operation accepts). -/
def grayPure : NDRaster → NDRaster
  | .g2 m => .g2 m
  | .c3 _ m => .g2 (m.map (fun v => npLuma (chanAt v 0) (chanAt v 1) (chanAt v 2)))

/-- `convert_to_grayscale`: identity on 2-D rasters; luma-weighted dot
product for RGB/RGBA (alpha ignored); any other channel count raises. -/
def convert_to_grayscale (r : NDRaster) : Except Err NDRaster :=
  match r with
  | .g2 m => .ok (.g2 m)
  | .c3 c m =>
    if c = 3 ∨ c = 4 then .ok (grayPure (.c3 c m)) else .error .unsupportedShape

/-- Total version of the brightness adjustment: every sample of a 2-D
raster, and the first three channels of a 3-D raster (Pillow preserves the
alpha channel), scaled by `factor = 1 + b/100` and clamped. -/
def brightPure (b : ℚ) : NDRaster → NDRaster
  | .g2 m => .g2 (m.map (fun v : Nat => clampTrunc ((v : ℚ) * (1 + b / 100))))
  | .c3 c m => .c3 c (m.map (fun v k =>
      if k.val < 3 then clampTrunc ((v k : ℚ) * (1 + b / 100)) else v k))

/-- `adjust_brightness`: multiplicative scaling by `1 + b/100`.  The 2-D
branch is the source's numpy formula; the 3-D branch models
`ImageEnhance.Brightness` (blend against black).  No range check on `b`. -/
def adjust_brightness (r : NDRaster) (b : ℚ) : Except Err NDRaster :=
  match r with
  | .g2 m => .ok (brightPure b (.g2 m))
  | .c3 c m =>
    if c = 3 ∨ c = 4 then .ok (brightPure b (.c3 c m)) else .error .unsupportedShape

/-- Total version of the contrast adjustment: mean-centred scaling, where
the 2-D mean is `np.mean` and the 3-D mean is Pillow's rounded L mean. -/
def contrastPure (cf : ℚ) : NDRaster → NDRaster
  | .g2 m => .g2 (m.map (fun v : Nat => clampTrunc (((v : ℚ) - matMeanQ m) * cf + matMeanQ m)))
  | .c3 c m => .c3 c (m.map (fun v k =>
      if k.val < 3 then clampTrunc (pilMeanL m + cf * ((v k : ℚ) - pilMeanL m)) else v k))

/-- `adjust_contrast`: mean-centred scaling.  The 2-D branch is the
source's numpy formula `(in - mean)*c + mean` clipped; the 3-D branch
models `ImageEnhance.Contrast` (blend against the solid L-mean image,
alpha preserved). -/
def adjust_contrast (r : NDRaster) (cf : ℚ) : Except Err NDRaster :=
  match r with
  | .g2 m => .ok (contrastPure cf (.g2 m))
  | .c3 c m =>
    if c = 3 ∨ c = 4 then .ok (contrastPure cf (.c3 c m)) else .error .unsupportedShape

/-- Total version of the saturation adjustment: per-pixel blend against the
pixel's own L value on the first three channels; 2-D rasters unchanged. -/
def satPure (s : ℚ) : NDRaster → NDRaster
  | .g2 m => .g2 m
  | .c3 c m => .c3 c (m.map (fun v k =>
      if k.val < 3 then clampTrunc (pilLpx v + s * ((v k : ℚ) - pilLpx v)) else v k))

/-- `adjust_saturation`: returns 2-D input unchanged (source short-circuit);
the 3-D branch models `ImageEnhance.Color` (blend against the per-pixel
grayscale degenerate, alpha preserved). -/
def adjust_saturation (r : NDRaster) (s : ℚ) : Except Err NDRaster :=
  match r with
  | .g2 m => .ok (.g2 m)
  | .c3 c m =>
    if c = 3 ∨ c = 4 then .ok (satPure s (.c3 c m)) else .error .unsupportedShape

/-- Total rotation dispatch on the already-normalized angle: the number of
counterclockwise quarter turns selected by `rotate_image`; identity on
angles it does not accept. -/
def rotPure (angle : ℤ) (r : NDRaster) : NDRaster :=
  if angle = 0 then r
  else if angle % 360 = 90 then r.rot90
  else if angle % 360 = 180 then r.rot90.rot90
  else if angle % 360 = 270 then r.rot90.rot90.rot90
  else r

/-- `rotate_image`: returns the input at angle 0, otherwise normalizes the
angle with Python's `%= 360` (toward a result in `[0, 360)`, which Lean's
`Int.emod` matches for a positive modulus) and dispatches `np.rot90` for
90/180/270; the source's `angle == 360` arm is unreachable after the
normalization, and every other residue raises. -/
def rotate_image (r : NDRaster) (angle : ℤ) : Except Err NDRaster :=
  if angle = 0 then .ok r
  else
    if angle % 360 = 90 then .ok r.rot90
    else if angle % 360 = 180 then .ok (r.rot90.rot90)
    else if angle % 360 = 270 then .ok (r.rot90.rot90.rot90)
    else if angle % 360 = 360 then .ok (r.rot90.rot90.rot90.rot90)
    else .error .unsupportedAngle

end PillowImageProcessor

/-! ### Histogram service (`adapters/histogram_service.py`) -/

/-- The domain `Histogram` dataclass: optional per-channel 256-bin counts. -/
structure Histogram where
  red_channel : Option (List Nat)
  green_channel : Option (List Nat)
  blue_channel : Option (List Nat)
  grayscale : Option (List Nat)
deriving DecidableEq

/-- Number of samples of a 2-D raster equal to `v` (the count that
`np.histogram(·, bins=256, range=(0,256))` puts in bin `v` for 8-bit
data). -/
def countVal (m : Mat Nat) (v : Nat) : Nat :=
  (Finset.univ.filter (fun p : Fin m.h × Fin m.w => m.px p.1 p.2 = v)).card

/-- 256-bin histogram of a 2-D raster. -/
def grayHist (m : Mat Nat) : List Nat :=
  (List.range 256).map (countVal m)

/-- Number of pixels of a 3-D raster whose channel `k` equals `v`. -/
def countValC {c : Nat} (m : Mat (Fin c → Nat)) (k v : Nat) : Nat :=
  (Finset.univ.filter (fun p : Fin m.h × Fin m.w => chanAt (m.px p.1 p.2) k = v)).card

/-- 256-bin histogram of channel `k` of a 3-D raster. -/
def chanHist {c : Nat} (m : Mat (Fin c → Nat)) (k : Nat) : List Nat :=
  (List.range 256).map (countValC m k)

namespace MatplotlibHistogramService

/-- `calculate_histogram`: a 2-D raster yields one grayscale histogram; a
3-D raster with `shape[2] >= 3` yields histograms of channels 0, 1, 2
(any further channels, alpha included, are ignored); otherwise the source
raises `ValueError`. -/
def calculate_histogram (r : NDRaster) : Except Err Histogram :=
  match r with
  | .g2 m => .ok ⟨none, none, none, some (grayHist m)⟩
  | .c3 c m =>
    if 3 ≤ c then .ok ⟨some (chanHist m 0), some (chanHist m 1), some (chanHist m 2), none⟩
    else .error .unsupportedShape

end MatplotlibHistogramService

/-! ### Domain models (`domain/models.py`) -/

/-- The `ImageProcessingParameters` dataclass (defaults `0, 1.0, 1.0, 0`). -/
structure ImageProcessingParameters where
  brightness : ℚ
  contrast : ℚ
  saturation : ℚ
  rotation : ℤ
deriving DecidableEq

/-- The dataclass defaults: identity parameters. -/
def ImageProcessingParameters.init : ImageProcessingParameters := ⟨0, 1, 1, 0⟩

/-- `ImageProcessingParameters.validate`: brightness in `[-100, 100]`,
contrast in `[0, 3]`, saturation in `[0, 3]`, rotation in
`{0, 90, 180, 270}`. -/
def ImageProcessingParameters.validate (p : ImageProcessingParameters) : Bool :=
  decide (-100 ≤ p.brightness ∧ p.brightness ≤ 100 ∧
    0 ≤ p.contrast ∧ p.contrast ≤ 3 ∧
    0 ≤ p.saturation ∧ p.saturation ≤ 3 ∧
    (p.rotation = 0 ∨ p.rotation = 90 ∨ p.rotation = 180 ∨ p.rotation = 270))

/-- The domain `Image` entity, generic in the raster representation `ρ`
(the service only touches rasters through the injected processor
interface).  `colorModelGray` models `info.color_model == GRAYSCALE`;
numpy copies give the Python object value semantics, which plain Lean
values have already. -/
structure PyImage (ρ : Type) where
  original_data : ρ
  current_data : ρ
  colorModelGray : Bool
  is_modified : Bool
deriving DecidableEq

/-- `Image.update_data`. -/
def PyImage.update_data (img : PyImage ρ) (d : ρ) : PyImage ρ :=
  { img with current_data := d, is_modified := true }

/-- `Image.reset_to_original`. -/
def PyImage.reset_to_original (img : PyImage ρ) : PyImage ρ :=
  { img with current_data := img.original_data, is_modified := false }

/-! ### The service (`services/image_service.py`) -/

/-- The slice of the `IImageProcessor` interface that
`apply_processing_parameters` uses, plus the shape test
`len(data.shape) == 2` that `Image.is_grayscale` performs on the raster. -/
structure RasterOps (ρ : Type) where
  convert_to_grayscale : ρ → Except Err ρ
  adjust_brightness : ρ → ℚ → Except Err ρ
  adjust_contrast : ρ → ℚ → Except Err ρ
  adjust_saturation : ρ → ℚ → Except Err ρ
  rotate_image : ρ → ℤ → Except Err ρ
  is2d : ρ → Bool

/-- `Image.is_grayscale`: the current raster is 2-D, or the color model
recorded at load time is grayscale. -/
def PyImage.is_grayscale (P : RasterOps ρ) (img : PyImage ρ) : Bool :=
  P.is2d img.current_data || img.colorModelGray

/-- The concrete processor of the application. -/
def pillowOps : RasterOps NDRaster :=
  ⟨PillowImageProcessor.convert_to_grayscale,
   PillowImageProcessor.adjust_brightness,
   PillowImageProcessor.adjust_contrast,
   PillowImageProcessor.adjust_saturation,
   PillowImageProcessor.rotate_image,
   NDRaster.is2d⟩

/-- The mutable fields of `ImageService` that the modelled methods read or
write. -/
structure ServiceState (ρ : Type) where
  current_image : Option (PyImage ρ)
  is_gray : Bool
  current_processing_params : ImageProcessingParameters
  base_image_data : Option ρ
deriving DecidableEq

namespace ImageService

/-- The brightness → contrast → saturation prefix of the pipeline replay in
`apply_processing_parameters` (each stage value-skipped exactly as in the
source; saturation also skipped when the image reports grayscale). -/
def bcsStages (P : RasterOps ρ) (gs : Bool) (p : ImageProcessingParameters) (r : ρ) :
    Except Err ρ :=
  (if p.brightness ≠ 0 then P.adjust_brightness r p.brightness else .ok r).bind fun d1 =>
  (if p.contrast ≠ 1 then P.adjust_contrast d1 p.contrast else .ok d1).bind fun d2 =>
  (if gs = false ∧ p.saturation ≠ 1 then P.adjust_saturation d2 p.saturation else .ok d2)

/-- The successful tail of `apply_processing_parameters`: store a copy of
the submitted parameters and commit the processed raster with
`update_data`. -/
def commit (st : ServiceState ρ) (img : PyImage ρ) (d : ρ)
    (p : ImageProcessingParameters) : ServiceState ρ :=
  { st with current_processing_params := p,
            current_image := some (img.update_data d) }

/-- Tail of `apply_processing_parameters`: forced grayscale conversion when
the image was converted earlier, then commit (`update_data` plus storing a
copy of the parameters).  On a raised exception the method returns `False`
with the state as mutated so far. -/
def applyFinish (P : RasterOps ρ) (st : ServiceState ρ) (img : PyImage ρ)
    (d : ρ) (p : ImageProcessingParameters) : Bool × ServiceState ρ :=
  if st.is_gray then
    match P.convert_to_grayscale d with
    | .error _ => (false, st)
    | .ok d5 => (true, commit st img d5 p)
  else
    (true, commit st img d p)

/-- Body of the `try` block of `apply_processing_parameters`, starting from
the (possibly just defaulted) base raster `b0`: replay brightness,
contrast, saturation, then rotate the processed data *and* the base by the
delta between the requested and the stored rotation, committing the
rotated base to the state before the grayscale-forcing stage. -/
def applyFromBase (P : RasterOps ρ) (st : ServiceState ρ) (img : PyImage ρ)
    (b0 : ρ) (p : ImageProcessingParameters) : Bool × ServiceState ρ :=
  match bcsStages P (img.is_grayscale P) p b0 with
  | .error _ => (false, st)
  | .ok d3 =>
    if p.rotation - st.current_processing_params.rotation ≠ 0 then
      match P.rotate_image d3 (p.rotation - st.current_processing_params.rotation) with
      | .error _ => (false, st)
      | .ok d4 =>
        match P.rotate_image b0 (p.rotation - st.current_processing_params.rotation) with
        | .error _ => (false, st)
        | .ok b1 => applyFinish P { st with base_image_data := some b1 } img d4 p
    else
      applyFinish P st img d3 p

/-- `ImageService.apply_processing_parameters`: rejects when no image is
loaded or validation fails (state untouched); defaults the base raster to
the current raster when unset (this assignment precedes the `try` block
and survives later failures); then replays the pipeline from the base. -/
def apply_processing_parameters (P : RasterOps ρ) (st : ServiceState ρ)
    (p : ImageProcessingParameters) : Bool × ServiceState ρ :=
  match st.current_image with
  | none => (false, st)
  | some img =>
    if p.validate then
      match st.base_image_data with
      | none =>
        applyFromBase P { st with base_image_data := some img.current_data }
          img img.current_data p
      | some b => applyFromBase P st img b p
    else (false, st)

/-- `ImageService.reset_to_original`: restore the current raster from the
original, clear the grayscale flag, reset the stored parameters and re-seed
the base raster from the original. -/
def reset_to_original (st : ServiceState ρ) : Bool × ServiceState ρ :=
  match st.current_image with
  | none => (false, st)
  | some img =>
    (true, { current_image := some img.reset_to_original,
             is_gray := false,
             current_processing_params := ImageProcessingParameters.init,
             base_image_data := some img.original_data })

end ImageService

/-- The current raster held by the service, if an image is loaded. -/
def ServiceState.currentData (st : ServiceState ρ) : Option ρ :=
  st.current_image.map (·.current_data)

/-- The base raster `apply_processing_parameters` starts its replay from:
the stored base, defaulted to the current raster when unset (requires a
loaded image). -/
def ServiceState.defaultedBase (st : ServiceState ρ) : Option ρ :=
  st.current_image.map (fun img => st.base_image_data.getD img.current_data)

/-! ### Closed forms of the concrete pipeline

The following definitions restate the behaviour of the concrete
(`pillowOps`) pipeline as pure functions over the decidable side
conditions that drive its branches; the theorems below prove them equal
to the operational definitions and then reason over the closed forms. -/

/-- A raster shape every Pillow-backed operation accepts: 2-D, or 3-D
with 3 or 4 channels. -/
def okChan : NDRaster → Bool
  | .g2 _ => true
  | .c3 c _ => c = 3 || c = 4

/-- The angles a nonzero rotation request dispatches on: normalization
lands in {90, 180, 270}. -/
def goodAngle (a : ℤ) : Prop := a % 360 = 90 ∨ a % 360 = 180 ∨ a % 360 = 270

instance (a : ℤ) : Decidable (goodAngle a) := by unfold goodAngle; infer_instance

/-- Whether the brightness/contrast/saturation prefix actually invokes a
processor operation (otherwise every stage is value-skipped). -/
def bcsActive (gs : Bool) (p : ImageProcessingParameters) : Prop :=
  p.brightness ≠ 0 ∨ p.contrast ≠ 1 ∨ (gs = false ∧ p.saturation ≠ 1)

instance (gs : Bool) (p : ImageProcessingParameters) : Decidable (bcsActive gs p) := by
  unfold bcsActive; infer_instance

/-- The pure value computed by the brightness → contrast → saturation
prefix on an accepted shape. -/
def bcsPure (gs : Bool) (p : ImageProcessingParameters) (r : NDRaster) : NDRaster :=
  let d1 := if p.brightness ≠ 0 then PillowImageProcessor.brightPure p.brightness r else r
  let d2 := if p.contrast ≠ 1 then PillowImageProcessor.contrastPure p.contrast d1 else d1
  if gs = false ∧ p.saturation ≠ 1 then PillowImageProcessor.satPure p.saturation d2 else d2

/-- Closed form of `applyFromBase` over the concrete processor: every
branch of the pipeline replay, written as pure case analysis on the
decidable side conditions. -/
def fromBaseSpec (st : ServiceState NDRaster) (img : PyImage NDRaster)
    (b0 : NDRaster) (p : ImageProcessingParameters) : Bool × ServiceState NDRaster :=
  let gs := img.is_grayscale pillowOps
  let delta := p.rotation - st.current_processing_params.rotation
  if okChan b0 = true then
    let d3 := bcsPure gs p b0
    if delta ≠ 0 then
      if goodAngle delta then
        let st' := { st with base_image_data := some (PillowImageProcessor.rotPure delta b0) }
        if st.is_gray then
          (true, ImageService.commit st' img (PillowImageProcessor.grayPure (PillowImageProcessor.rotPure delta d3)) p)
        else (true, ImageService.commit st' img (PillowImageProcessor.rotPure delta d3) p)
      else (false, st)
    else
      if st.is_gray then (true, ImageService.commit st img (PillowImageProcessor.grayPure d3) p)
      else (true, ImageService.commit st img d3 p)
  else
    if bcsActive gs p then (false, st)
    else
      if delta ≠ 0 then
        if goodAngle delta then
          let st' := { st with base_image_data := some (PillowImageProcessor.rotPure delta b0) }
          if st.is_gray then (false, st')
          else (true, ImageService.commit st' img (PillowImageProcessor.rotPure delta b0) p)
        else (false, st)
      else
        if st.is_gray then (false, st)
        else (true, ImageService.commit st img b0 p)

/-! ### Concrete fixtures

A 1×1 color raster with pixel (100, 50, 0), and the states a run of the
application can reach with it (the grayscale flag set while the current
raster is still 3-D is reachable through the tonal-correction fast path,
which overwrites the current raster from the color base after a grayscale
conversion). -/

def cPix : Fin 3 → Nat := fun k => if k.val = 0 then 100 else if k.val = 1 then 50 else 0
def cRaster : NDRaster := .c3 3 (Mat.mk 1 1 (fun _ _ => cPix))
def cImage : PyImage NDRaster := ⟨cRaster, cRaster, false, false⟩
def cState : ServiceState NDRaster := ⟨some cImage, true, .init, some cRaster⟩
def cParams : ImageProcessingParameters := ⟨0, 1, 0, 0⟩
def gray58 : NDRaster := .g2 (Mat.mk 1 1 (fun _ _ => 58))
def gray59 : NDRaster := .g2 (Mat.mk 1 1 (fun _ _ => 59))

/-! ### A symbolic raster, to observe the order of processor calls

`apply_processing_parameters` manipulates rasters only through the
injected `IImageProcessor` interface, so instantiating that interface with
a term algebra records exactly which operations the pipeline applies and
in which order. -/

/-- A raster term: the base raster with the history of operations applied
to it. -/
inductive FreeRaster where
  | fbase
  | fbright (q : ℚ) (r : FreeRaster)
  | fcontrast (q : ℚ) (r : FreeRaster)
  | fsat (q : ℚ) (r : FreeRaster)
  | frot (a : ℤ) (r : FreeRaster)
  | fgray (r : FreeRaster)
deriving DecidableEq

/-- The recording instantiation of the processor interface: every
operation succeeds and wraps its argument; `is2d` reports the fixed shape
`b2d` (the current raster's dimensionality is unchanged by the recorded
operations the pipeline performs before consulting it). -/
def freeOps (b2d : Bool) : RasterOps FreeRaster :=
  ⟨fun r => .ok (.fgray r),
   fun r q => .ok (.fbright q r),
   fun r q => .ok (.fcontrast q r),
   fun r q => .ok (.fsat q r),
   fun r a => .ok (.frot a r),
   fun _ => b2d⟩

/-- Modelled from the spec: the stage order asserted for
`apply_parameters` — grayscale-forcing first (when the image was
explicitly converted to grayscale earlier), then brightness, contrast,
saturation (skipped for grayscale images), and rotation last — with the
same value-based skips that the code uses. -/
def specOrderCurrent (isGrayFlag gs : Bool) (p : ImageProcessingParameters)
    (delta : ℤ) (r : FreeRaster) : FreeRaster :=
  let r1 := if isGrayFlag then FreeRaster.fgray r else r
  let r2 := if p.brightness ≠ 0 then FreeRaster.fbright p.brightness r1 else r1
  let r3 := if p.contrast ≠ 1 then FreeRaster.fcontrast p.contrast r2 else r2
  let r4 := if gs = false ∧ p.saturation ≠ 1 then FreeRaster.fsat p.saturation r3 else r3
  if delta ≠ 0 then FreeRaster.frot delta r4 else r4

/-- The raster the pipeline replay actually produces, in the code's order:
brightness, contrast, saturation (skipped for grayscale images), rotation
by the delta, and grayscale-forcing last. -/
def codeOrderCurrent (isGrayFlag gs : Bool) (p : ImageProcessingParameters)
    (delta : ℤ) (r : FreeRaster) : FreeRaster :=
  let r1 := if p.brightness ≠ 0 then FreeRaster.fbright p.brightness r else r
  let r2 := if p.contrast ≠ 1 then FreeRaster.fcontrast p.contrast r1 else r1
  let r3 := if gs = false ∧ p.saturation ≠ 1 then FreeRaster.fsat p.saturation r2 else r2
  let r4 := if delta ≠ 0 then FreeRaster.frot delta r3 else r3
  if isGrayFlag then FreeRaster.fgray r4 else r4

/-! ### Well-formedness predicates and histogram observations -/

/-- Every sample of the raster fits in 8 bits (true of every raster the
application holds, since they are numpy `uint8` arrays). -/
def allSamplesLt256 : NDRaster → Prop
  | .g2 m => ∀ i j, m.px i j < 256
  | .c3 _ m => ∀ i j k, m.px i j k < 256

instance (r : NDRaster) : Decidable (allSamplesLt256 r) := by
  cases r <;> (unfold allSamplesLt256; infer_instance)

/-- The raster shapes the specification calls well-formed: 2-D grayscale,
or 3-D with 3 or 4 channels. -/
def wfShape : NDRaster → Prop
  | .g2 _ => True
  | .c3 c _ => c = 3 ∨ c = 4

/-- The channel histograms present in a `Histogram` value, in R, G, B,
grayscale order. -/
def presentChannels (H : Histogram) : List (List Nat) :=
  [H.red_channel, H.green_channel, H.blue_channel, H.grayscale].filterMap id

/-- How many channel histograms `calculate_histogram` produces for the
raster: one for grayscale, three (R, G, B) for color. -/
def numHists : NDRaster → Nat
  | .g2 _ => 1
  | .c3 _ _ => 3

/-! ## Theorems -/

/-! ### General lemmas about the embedding -/

theorem exceptBind_ok (a : α) (f : α → Except ε β) : (Except.ok a).bind f = f a := rfl

theorem Mat.rot90_map (f : α → β) (A : Mat α) :
    (A.map f).rot90 = A.rot90.map f := rfl

theorem Mat.rot90_four_id (A : Mat α) :
    A.rot90.rot90.rot90.rot90 = A := by
  cases A with
  | mk h w px =>
    show Mat.mk h w (fun i j => px i.rev.rev j.rev.rev) = Mat.mk h w px
    have hpx : (fun i j => px i.rev.rev j.rev.rev) = px := by
      funext i j
      rw [Fin.rev_rev, Fin.rev_rev]
    rw [hpx]

theorem NDRaster.rot90_fourfold_id (r : NDRaster) :
    r.rot90.rot90.rot90.rot90 = r := by
  cases r with
  | g2 m => simp only [NDRaster.rot90, Mat.rot90_four_id]
  | c3 c m => simp only [NDRaster.rot90, Mat.rot90_four_id]

namespace PillowImageProcessor

theorem rotate_image_quarter (r : NDRaster) : rotate_image r 90 = .ok r.rot90 := rfl

end PillowImageProcessor

/-! ### C6: four quarter-turns compose to the identity -/

/-- C6: for every raster (grayscale or color), rotating by 90 degrees four
times in succession returns the original raster, and each quarter-turn is
the exact array index permutation `rot90` (no interpolation). -/
theorem rotate_four_quarter_turns_id (r : NDRaster) :
    ((((PillowImageProcessor.rotate_image r 90).bind
        (fun r1 => PillowImageProcessor.rotate_image r1 90)).bind
        (fun r2 => PillowImageProcessor.rotate_image r2 90)).bind
        (fun r3 => PillowImageProcessor.rotate_image r3 90)) = .ok r ∧
    PillowImageProcessor.rotate_image r 90 = .ok r.rot90 := by
  constructor
  · simp only [PillowImageProcessor.rotate_image_quarter, exceptBind_ok]
    exact congrArg Except.ok (NDRaster.rot90_fourfold_id r)
  · exact PillowImageProcessor.rotate_image_quarter r

/-! ### C10: angle normalization in `rotate_image` -/

/-- C10 counterexample: the angle 360 is congruent to 0 modulo 360, yet
`rotate_image` rejects it (it normalizes to 0, for which no dispatch arm
exists), so the primitive does not accept every angle congruent to
0/90/180/270. -/
theorem rotate_image_360_rejected :
    PillowImageProcessor.rotate_image (.g2 (Mat.mk 1 2 (fun _ j => j.val))) 360 =
      .error .unsupportedAngle := by decide

/-- C10 amended: `rotate_image` accepts 0 and every integer angle (negative
included) whose Python-style normalization `angle % 360` lies in
{90, 180, 270}, dispatching the corresponding number of exact quarter
turns (so -90 behaves as 270, -270 as 90); a nonzero angle normalizing to
0 is rejected.  The pipeline only calls it on nonzero deltas of two stored
rotations from {0, 90, 180, 270}, and every such delta normalizes into
{90, 180, 270}, hence is accepted. -/
theorem rotate_image_normalization :
    (∀ r : NDRaster, PillowImageProcessor.rotate_image r 0 = .ok r) ∧
    (∀ (r : NDRaster) (a : ℤ), a % 360 = 90 →
      PillowImageProcessor.rotate_image r a = .ok r.rot90) ∧
    (∀ (r : NDRaster) (a : ℤ), a % 360 = 180 →
      PillowImageProcessor.rotate_image r a = .ok (r.rot90.rot90)) ∧
    (∀ (r : NDRaster) (a : ℤ), a % 360 = 270 →
      PillowImageProcessor.rotate_image r a = .ok (r.rot90.rot90.rot90)) ∧
    (∀ (r : NDRaster) (a : ℤ), a ≠ 0 → a % 360 = 0 →
      PillowImageProcessor.rotate_image r a = .error .unsupportedAngle) ∧
    (∀ r1 r2 : ℤ,
      (r1 = 0 ∨ r1 = 90 ∨ r1 = 180 ∨ r1 = 270) →
      (r2 = 0 ∨ r2 = 90 ∨ r2 = 180 ∨ r2 = 270) →
      r1 - r2 ≠ 0 →
      (r1 - r2) % 360 = 90 ∨ (r1 - r2) % 360 = 180 ∨ (r1 - r2) % 360 = 270) := by
  refine ⟨fun r => rfl, ?_, ?_, ?_, ?_, ?_⟩
  · intro r a h
    have ha : a ≠ 0 := by intro h0; rw [h0] at h; simp at h
    simp only [PillowImageProcessor.rotate_image, if_neg ha, h]
    rfl
  · intro r a h
    have ha : a ≠ 0 := by intro h0; rw [h0] at h; simp at h
    have h90 : ¬ a % 360 = 90 := by rw [h]; decide
    simp only [PillowImageProcessor.rotate_image, if_neg ha, h, if_neg h90]
    rfl
  · intro r a h
    have ha : a ≠ 0 := by intro h0; rw [h0] at h; simp at h
    have h90 : ¬ a % 360 = 90 := by rw [h]; decide
    have h180 : ¬ a % 360 = 180 := by rw [h]; decide
    simp only [PillowImageProcessor.rotate_image, if_neg ha, h, if_neg h90, if_neg h180]
    rfl
  · intro r a ha h
    have h90 : ¬ a % 360 = 90 := by rw [h]; decide
    have h180 : ¬ a % 360 = 180 := by rw [h]; decide
    have h270 : ¬ a % 360 = 270 := by rw [h]; decide
    have h360 : ¬ a % 360 = 360 := by rw [h]; decide
    simp only [PillowImageProcessor.rotate_image, if_neg ha, if_neg h90, if_neg h180,
      if_neg h270, if_neg h360]
  · intro r1 r2 h1 h2 hne
    rcases h1 with rfl | rfl | rfl | rfl <;> rcases h2 with rfl | rfl | rfl | rfl <;>
      simp_all

/-- C10 witness: a negative angle, -90, is accepted and behaves as three
quarter turns (i.e. as 270). -/
theorem rotate_image_normalization_witness :
    PillowImageProcessor.rotate_image (.g2 (Mat.mk 1 2 (fun _ j => j.val))) (-90) =
      .ok ((NDRaster.g2 (Mat.mk 1 2 (fun _ j => j.val))).rot90.rot90.rot90) :=
  rotate_image_normalization.2.2.2.1 _ (-90) (by decide)

/-! ### C9: the brightness primitive -/

/-- C9 counterexample: `adjust_brightness` performs no range validation:
at `b = 200` (outside `[-100, 100]`) it does not fail but returns the
scaled, clamped raster (here `100 * 3.0` clamped to 255). -/
theorem adjust_brightness_no_validation :
    PillowImageProcessor.adjust_brightness (.g2 (Mat.mk 1 1 (fun _ _ => 100))) 200 =
      .ok (.g2 (Mat.mk 1 1 (fun _ _ => 255))) := by
  have hpx : Mat.map (fun v : Nat => clampTrunc ((v : ℚ) * (1 + 200 / 100)))
      (Mat.mk 1 1 (fun _ _ => 100)) = Mat.mk 1 1 (fun _ _ => 255) := by
    unfold Mat.map
    congr 1
    funext i j
    show clampTrunc ((100 : ℚ) * (1 + 200 / 100)) = 255
    norm_num [clampTrunc]
    rfl
  show Except.ok (NDRaster.g2 _) = _
  rw [hpx]

/-- C9 amended: `adjust_brightness` scales by `factor = 1 + b/100` with
clamping to `[0, 255]` for every `b`, in-range or not (the primitive never
validates `b`; range enforcement happens only in
`ImageProcessingParameters.validate` at the service layer): every sample
of a 2-D raster is scaled, and for a 3-D RGB/RGBA raster the color
channels are scaled with the alpha channel preserved (Pillow semantics). -/
theorem adjust_brightness_formula :
    (∀ (m : Mat Nat) (b : ℚ),
      PillowImageProcessor.adjust_brightness (.g2 m) b =
        .ok (PillowImageProcessor.brightPure b (.g2 m))) ∧
    (∀ (c : Nat) (m : Mat (Fin c → Nat)) (b : ℚ), c = 3 ∨ c = 4 →
      PillowImageProcessor.adjust_brightness (.c3 c m) b =
        .ok (PillowImageProcessor.brightPure b (.c3 c m))) := by
  constructor
  · intro m b
    rfl
  · intro c m b hc
    simp only [PillowImageProcessor.adjust_brightness, if_pos hc]

/-- C9 witness: the brightness formula applied to a concrete 3-channel
raster at the out-of-range value `b = 200`. -/
theorem adjust_brightness_formula_witness :
    PillowImageProcessor.adjust_brightness (.c3 3 (Mat.mk 1 1 (fun _ _ _ => 10))) 200 =
      .ok (PillowImageProcessor.brightPure 200 (.c3 3 (Mat.mk 1 1 (fun _ _ _ => 10)))) :=
  adjust_brightness_formula.2 3 (Mat.mk 1 1 (fun _ _ _ => 10)) 200 (Or.inl rfl)

/-! ### C7: histogram shape errors -/

/-- C7 counterexample: a 3-D raster with 5 channels (channel count outside
{1,3,4}) does not make `calculate_histogram` fail: the `shape[2] >= 3`
branch silently returns R/G/B histograms of its first three channels. -/
theorem calculate_histogram_five_channels_ok :
    MatplotlibHistogramService.calculate_histogram (.c3 5 (Mat.mk 1 1 (fun _ _ _ => 7))) =
      .ok ⟨some (chanHist (Mat.mk 1 1 (fun _ _ _ => 7) : Mat (Fin 5 → Nat)) 0),
           some (chanHist (Mat.mk 1 1 (fun _ _ _ => 7) : Mat (Fin 5 → Nat)) 1),
           some (chanHist (Mat.mk 1 1 (fun _ _ _ => 7) : Mat (Fin 5 → Nat)) 2), none⟩ := rfl

/-- C7 amended: for a 3-D raster, `calculate_histogram` fails (with the
raised unsupported-shape error) exactly when the channel count is below 3;
for any channel count of at least 3 — including counts outside {1,3,4}
such as 5 — it silently returns histograms of the first three channels. -/
theorem calculate_histogram_c3_ok_iff (c : Nat) (m : Mat (Fin c → Nat)) :
    MatplotlibHistogramService.calculate_histogram (.c3 c m) =
      (if 3 ≤ c then
        .ok ⟨some (chanHist m 0), some (chanHist m 1), some (chanHist m 2), none⟩
       else .error .unsupportedShape) := rfl

/-! ### C8: histogram bin counts sum to the pixel count -/

theorem sum_map_range (f : Nat → Nat) (n : Nat) :
    ((List.range n).map f).sum = ∑ v ∈ Finset.range n, f v := by
  induction n with
  | zero => simp
  | succ n ih =>
    rw [List.range_succ, List.map_append, List.sum_append, Finset.sum_range_succ, ih]
    simp

theorem countVal_sum_bins (m : Mat Nat) (hm : ∀ i j, m.px i j < 256) :
    ∑ v ∈ Finset.range 256, countVal m v = m.h * m.w := by
  have h1 : (Finset.univ : Finset (Fin m.h × Fin m.w)).card =
      ∑ v ∈ Finset.range 256,
        (Finset.univ.filter (fun p : Fin m.h × Fin m.w => m.px p.1 p.2 = v)).card :=
    Finset.card_eq_sum_card_fiberwise (fun x _ => Finset.mem_range.mpr (hm x.1 x.2))
  unfold countVal
  rw [← h1, Finset.card_univ]
  simp

theorem countValC_sum_bins {c : Nat} (m : Mat (Fin c → Nat)) (k : Nat) (hk : k < c)
    (hm : ∀ i j kk, m.px i j kk < 256) :
    ∑ v ∈ Finset.range 256, countValC m k v = m.h * m.w := by
  have h1 : (Finset.univ : Finset (Fin m.h × Fin m.w)).card =
      ∑ v ∈ Finset.range 256,
        (Finset.univ.filter (fun p : Fin m.h × Fin m.w => chanAt (m.px p.1 p.2) k = v)).card := by
    refine Finset.card_eq_sum_card_fiberwise (fun x _ => Finset.mem_range.mpr ?_)
    unfold chanAt
    rw [dif_pos hk]
    exact hm x.1 x.2 ⟨k, hk⟩
  unfold countValC
  rw [← h1, Finset.card_univ]
  simp

theorem grayHist_sum (m : Mat Nat) (hm : ∀ i j, m.px i j < 256) :
    (grayHist m).sum = m.h * m.w := by
  rw [grayHist, sum_map_range]
  exact countVal_sum_bins m hm

theorem chanHist_sum {c : Nat} (m : Mat (Fin c → Nat)) (k : Nat) (hk : k < c)
    (hm : ∀ i j kk, m.px i j kk < 256) :
    (chanHist m k).sum = m.h * m.w := by
  rw [chanHist, sum_map_range]
  exact countValC_sum_bins m k hk hm

/-- C8: for every well-formed raster (2-D grayscale, or 3-D with 3 or 4
channels) of 8-bit samples, `calculate_histogram` succeeds and each
256-bin channel histogram it produces has bin counts summing to
width×height: one grayscale histogram for 2-D input, and three
independent R, G, B histograms for color input (the histograms read only
channels 0, 1, 2, so an alpha channel is ignored). -/
theorem histogram_bin_sums (r : NDRaster) (hshape : wfShape r) (hs : allSamplesLt256 r) :
    Except.map (fun H => (presentChannels H).map List.sum)
      (MatplotlibHistogramService.calculate_histogram r) =
      .ok (List.replicate (numHists r) r.pixelCount) := by
  cases r with
  | g2 m =>
    simp only [MatplotlibHistogramService.calculate_histogram, Except.map, presentChannels,
      numHists, NDRaster.pixelCount, List.filterMap, List.map, List.replicate]
    rw [grayHist_sum m hs]
  | c3 c m =>
    have h3 : 3 ≤ c := by rcases hshape with rfl | rfl <;> omega
    simp only [MatplotlibHistogramService.calculate_histogram, if_pos h3, Except.map,
      presentChannels, numHists, NDRaster.pixelCount, List.filterMap, List.map, List.replicate]
    rw [chanHist_sum m 0 (by omega) hs, chanHist_sum m 1 (by omega) hs,
      chanHist_sum m 2 (by omega) hs]

/-- C8 witness: the bin-sum law at a concrete 1×2 RGBA raster. -/
theorem histogram_bin_sums_witness :
    Except.map (fun H => (presentChannels H).map List.sum)
      (MatplotlibHistogramService.calculate_histogram
        (.c3 4 (Mat.mk 1 2 (fun _ _ k => k.val * 10)))) =
      .ok (List.replicate
        (numHists (.c3 4 (Mat.mk 1 2 (fun _ _ k => k.val * 10))))
        (NDRaster.pixelCount (.c3 4 (Mat.mk 1 2 (fun _ _ k => k.val * 10))))) :=
  histogram_bin_sums _ (Or.inr rfl) (by decide)

/-! ### Shape and commutation lemmas for the concrete pixel operations -/

namespace PillowImageProcessor

theorem okChan_rot90 (r : NDRaster) : okChan r.rot90 = okChan r := by
  cases r <;> rfl

theorem okChan_brightPure (b : ℚ) (r : NDRaster) : okChan (brightPure b r) = okChan r := by
  cases r <;> rfl

theorem okChan_contrastPure (cf : ℚ) (r : NDRaster) : okChan (contrastPure cf r) = okChan r := by
  cases r <;> rfl

theorem okChan_satPure (s : ℚ) (r : NDRaster) : okChan (satPure s r) = okChan r := by
  cases r <;> rfl

theorem is2d_rot90 (r : NDRaster) : r.rot90.is2d = r.is2d := by
  cases r <;> rfl

theorem is2d_brightPure (b : ℚ) (r : NDRaster) : (brightPure b r).is2d = r.is2d := by
  cases r <;> rfl

theorem is2d_contrastPure (cf : ℚ) (r : NDRaster) : (contrastPure cf r).is2d = r.is2d := by
  cases r <;> rfl

theorem is2d_satPure (s : ℚ) (r : NDRaster) : (satPure s r).is2d = r.is2d := by
  cases r <;> rfl

theorem is2d_grayPure (r : NDRaster) : (grayPure r).is2d = true := by
  cases r <;> rfl

theorem adjust_brightness_eq (r : NDRaster) (b : ℚ) :
    adjust_brightness r b =
      if okChan r = true then .ok (brightPure b r) else .error .unsupportedShape := by
  cases r with
  | g2 m => rfl
  | c3 c m =>
    by_cases h : c = 3 ∨ c = 4
    · rcases h with rfl | rfl <;> rfl
    · simp [adjust_brightness, okChan, h]

theorem adjust_contrast_eq (r : NDRaster) (cf : ℚ) :
    adjust_contrast r cf =
      if okChan r = true then .ok (contrastPure cf r) else .error .unsupportedShape := by
  cases r with
  | g2 m => rfl
  | c3 c m =>
    by_cases h : c = 3 ∨ c = 4
    · rcases h with rfl | rfl <;> rfl
    · simp [adjust_contrast, okChan, h]

theorem adjust_saturation_eq (r : NDRaster) (s : ℚ) :
    adjust_saturation r s =
      if okChan r = true then .ok (satPure s r) else .error .unsupportedShape := by
  cases r with
  | g2 m => rfl
  | c3 c m =>
    by_cases h : c = 3 ∨ c = 4
    · rcases h with rfl | rfl <;> rfl
    · simp [adjust_saturation, okChan, h]

theorem convert_to_grayscale_eq (r : NDRaster) :
    convert_to_grayscale r =
      if okChan r = true then .ok (grayPure r) else .error .unsupportedShape := by
  cases r with
  | g2 m => rfl
  | c3 c m =>
    by_cases h : c = 3 ∨ c = 4
    · rcases h with rfl | rfl <;> rfl
    · simp [convert_to_grayscale, okChan, h]

theorem rotate_image_eq (r : NDRaster) (a : ℤ) (ha : a ≠ 0) :
    rotate_image r a =
      if goodAngle a then .ok (rotPure a r) else .error .unsupportedAngle := by
  have h360 : ¬ a % 360 = 360 := by
    have := Int.emod_lt_of_pos a (show (0:ℤ) < 360 by norm_num)
    omega
  unfold rotate_image rotPure goodAngle
  by_cases h90 : a % 360 = 90
  · simp [ha, h90]
  · by_cases h180 : a % 360 = 180
    · simp [ha, h90, h180]
    · by_cases h270 : a % 360 = 270
      · simp [ha, h90, h180, h270]
      · simp [ha, h90, h180, h270, h360]

theorem brightPure_rot90 (b : ℚ) (r : NDRaster) :
    brightPure b r.rot90 = (brightPure b r).rot90 := by
  cases r <;> rfl

theorem satPure_rot90 (s : ℚ) (r : NDRaster) :
    satPure s r.rot90 = (satPure s r).rot90 := by
  cases r <;> rfl

theorem grayPure_rot90 (r : NDRaster) :
    grayPure r.rot90 = (grayPure r).rot90 := by
  cases r <;> rfl

theorem matSum_rot90 {α : Type} (m : Mat α) (f : α → ℚ) :
    (∑ i : Fin m.rot90.h, ∑ j : Fin m.rot90.w, f (m.rot90.px i j)) =
      ∑ i : Fin m.h, ∑ j : Fin m.w, f (m.px i j) := by
  show (∑ i : Fin m.w, ∑ j : Fin m.h, f (m.px j i.rev)) = _
  rw [Finset.sum_comm]
  refine Finset.sum_congr rfl (fun j _ => ?_)
  have := Equiv.sum_comp (Fin.revPerm : Equiv.Perm (Fin m.w)) (fun i => f (m.px j i))
  simpa using this

theorem matMeanQ_rot90 (m : Mat Nat) : matMeanQ m.rot90 = matMeanQ m := by
  unfold matMeanQ
  rw [matSum_rot90 m (fun n : Nat => (n : ℚ))]
  show _ / ((m.w : ℚ) * m.h) = _ / ((m.h : ℚ) * m.w)
  rw [mul_comm (m.w : ℚ) (m.h : ℚ)]

theorem pilMeanL_rot90 {c : Nat} (m : Mat (Fin c → Nat)) :
    pilMeanL m.rot90 = pilMeanL m := by
  unfold pilMeanL
  rw [matSum_rot90 m pilLpx]
  show ((⌊_ / ((m.w : ℚ) * m.h) + 1/2⌋).toNat : ℚ) = ((⌊_ / ((m.h : ℚ) * m.w) + 1/2⌋).toNat : ℚ)
  rw [mul_comm (m.w : ℚ) (m.h : ℚ)]

theorem contrastPure_rot90 (cf : ℚ) (r : NDRaster) :
    contrastPure cf r.rot90 = (contrastPure cf r).rot90 := by
  cases r with
  | g2 m =>
    show NDRaster.g2 (m.rot90.map _) = NDRaster.g2 ((m.map _).rot90)
    rw [Mat.rot90_map]
    rw [show matMeanQ m.rot90 = matMeanQ m from matMeanQ_rot90 m]
  | c3 c m =>
    show NDRaster.c3 c (m.rot90.map _) = NDRaster.c3 c ((m.map _).rot90)
    rw [Mat.rot90_map]
    rw [show pilMeanL m.rot90 = pilMeanL m from pilMeanL_rot90 m]

theorem okChan_rotPure (a : ℤ) (r : NDRaster) : okChan (rotPure a r) = okChan r := by
  unfold rotPure
  split_ifs <;> simp [okChan_rot90]

theorem is2d_rotPure (a : ℤ) (r : NDRaster) : (rotPure a r).is2d = r.is2d := by
  unfold rotPure
  split_ifs <;> simp [is2d_rot90]

theorem grayPure_rotPure (a : ℤ) (r : NDRaster) :
    grayPure (rotPure a r) = rotPure a (grayPure r) := by
  unfold rotPure
  split_ifs <;> simp [grayPure_rot90]

end PillowImageProcessor

theorem okChan_bcsPure (gs : Bool) (p : ImageProcessingParameters) (r : NDRaster) :
    okChan (bcsPure gs p r) = okChan r := by
  simp only [bcsPure]
  split_ifs <;>
    simp [PillowImageProcessor.okChan_brightPure, PillowImageProcessor.okChan_contrastPure,
      PillowImageProcessor.okChan_satPure]

theorem is2d_bcsPure (gs : Bool) (p : ImageProcessingParameters) (r : NDRaster) :
    (bcsPure gs p r).is2d = r.is2d := by
  simp only [bcsPure]
  split_ifs <;>
    simp [PillowImageProcessor.is2d_brightPure, PillowImageProcessor.is2d_contrastPure,
      PillowImageProcessor.is2d_satPure]

theorem bcsPure_rot90 (gs : Bool) (p : ImageProcessingParameters) (r : NDRaster) :
    bcsPure gs p r.rot90 = (bcsPure gs p r).rot90 := by
  simp only [bcsPure]
  split_ifs <;>
    simp [PillowImageProcessor.brightPure_rot90, PillowImageProcessor.contrastPure_rot90,
      PillowImageProcessor.satPure_rot90]

theorem bcsPure_rotPure (gs : Bool) (p : ImageProcessingParameters) (a : ℤ) (r : NDRaster) :
    bcsPure gs p (PillowImageProcessor.rotPure a r) =
      PillowImageProcessor.rotPure a (bcsPure gs p r) := by
  unfold PillowImageProcessor.rotPure
  split_ifs <;> simp [bcsPure_rot90]

theorem bcsStages_eq (gs : Bool) (p : ImageProcessingParameters) (r : NDRaster) :
    ImageService.bcsStages pillowOps gs p r =
      if okChan r = true then .ok (bcsPure gs p r)
      else if bcsActive gs p then .error .unsupportedShape else .ok r := by
  unfold ImageService.bcsStages bcsPure bcsActive
  by_cases h1 : p.brightness ≠ 0 <;> by_cases h2 : p.contrast ≠ 1 <;>
    by_cases h3 : gs = false ∧ p.saturation ≠ 1 <;>
    by_cases hok : okChan r = true <;>
    simp [h1, h2, h3, hok, pillowOps, PillowImageProcessor.adjust_brightness_eq,
      PillowImageProcessor.adjust_contrast_eq, PillowImageProcessor.adjust_saturation_eq,
      PillowImageProcessor.okChan_brightPure, PillowImageProcessor.okChan_contrastPure,
      Except.bind]

theorem applyFromBase_spec (st : ServiceState NDRaster) (img : PyImage NDRaster)
    (b0 : NDRaster) (p : ImageProcessingParameters) :
    ImageService.applyFromBase pillowOps st img b0 p = fromBaseSpec st img b0 p := by
  unfold ImageService.applyFromBase fromBaseSpec ImageService.applyFinish
  rw [bcsStages_eq]
  generalize img.is_grayscale pillowOps = gs
  by_cases hd : p.rotation - st.current_processing_params.rotation ≠ 0
  · by_cases hok : okChan b0 = true <;>
      by_cases hact : bcsActive gs p <;>
      by_cases hg : st.is_gray = true <;>
      by_cases hgood : goodAngle (p.rotation - st.current_processing_params.rotation) <;>
      simp [hok, hact, hd, hg, hgood, pillowOps,
        PillowImageProcessor.rotate_image_eq _ _ hd,
        PillowImageProcessor.convert_to_grayscale_eq,
        PillowImageProcessor.okChan_rotPure, okChan_bcsPure]
  · by_cases hok : okChan b0 = true <;>
      by_cases hact : bcsActive gs p <;>
      by_cases hg : st.is_gray = true <;>
      simp [hok, hact, hd, hg, pillowOps,
        PillowImageProcessor.convert_to_grayscale_eq,
        PillowImageProcessor.okChan_rotPure, okChan_bcsPure]

theorem apply_eq_fromBase {ρ : Type} (P : RasterOps ρ) (st : ServiceState ρ)
    (img : PyImage ρ) (p : ImageProcessingParameters)
    (hci : st.current_image = some img) (hv : p.validate = true) :
    ImageService.apply_processing_parameters P st p =
      ImageService.applyFromBase P
        { st with base_image_data := some (st.base_image_data.getD img.current_data) }
        img (st.base_image_data.getD img.current_data) p := by
  obtain ⟨ci, ig, cp, bi⟩ := st
  obtain rfl : ci = some img := hci
  cases bi <;> simp [ImageService.apply_processing_parameters, hv, Option.getD]

theorem currentData_commit (st : ServiceState ρ) (img : PyImage ρ) (d : ρ)
    (p : ImageProcessingParameters) :
    (ImageService.commit st img d p).currentData = some d := rfl

theorem is_grayscale_update (img : PyImage NDRaster) (d : NDRaster) :
    (img.update_data d).is_grayscale pillowOps = (d.is2d || img.colorModelGray) := rfl

theorem current_data_update {ρ : Type} (img : PyImage ρ) (d : ρ) :
    (img.update_data d).current_data = d := rfl

theorem apply_second (st2 : ServiceState NDRaster) (img2 : PyImage NDRaster)
    (p : ImageProcessingParameters) (hci2 : st2.current_image = some img2)
    (hv : p.validate = true)
    (hp : st2.current_processing_params.rotation = p.rotation) :
    ImageService.apply_processing_parameters pillowOps st2 p =
      (if okChan (st2.base_image_data.getD img2.current_data) = true then
        if st2.is_gray then
          (true, ImageService.commit
            { st2 with base_image_data := some (st2.base_image_data.getD img2.current_data) }
            img2
            (PillowImageProcessor.grayPure
              (bcsPure (img2.is_grayscale pillowOps) p (st2.base_image_data.getD img2.current_data)))
            p)
        else
          (true, ImageService.commit
            { st2 with base_image_data := some (st2.base_image_data.getD img2.current_data) }
            img2
            (bcsPure (img2.is_grayscale pillowOps) p (st2.base_image_data.getD img2.current_data))
            p)
      else if bcsActive (img2.is_grayscale pillowOps) p then
        (false, { st2 with base_image_data := some (st2.base_image_data.getD img2.current_data) })
      else if st2.is_gray then
        (false, { st2 with base_image_data := some (st2.base_image_data.getD img2.current_data) })
      else
        (true, ImageService.commit
          { st2 with base_image_data := some (st2.base_image_data.getD img2.current_data) }
          img2 (st2.base_image_data.getD img2.current_data) p)) := by
  rw [apply_eq_fromBase pillowOps st2 img2 p hci2 hv, applyFromBase_spec]
  have hz : p.rotation -
      ({ st2 with base_image_data := some (st2.base_image_data.getD img2.current_data) } :
        ServiceState NDRaster).current_processing_params.rotation = 0 := by
    show p.rotation - st2.current_processing_params.rotation = 0
    rw [hp, sub_self]
  simp [fromBaseSpec, hz]

/-! ### C1: idempotence of `apply_processing_parameters` -/

/-- C1 amended: double application equals single application on every
state in which the grayscale bookkeeping is consistent — the grayscale
flag implies the image reports grayscale, and (when the flag is clear)
the current raster and the replay base have the same dimensionality
(which holds for every state the UI reaches except through the
tonal-correction fast path, see the counterexample). -/
theorem apply_idempotent_on_consistent_states (st : ServiceState NDRaster)
    (img : PyImage NDRaster) (p : ImageProcessingParameters)
    (hci : st.current_image = some img) (hv : p.validate = true)
    (hc1 : st.is_gray = true → img.is_grayscale pillowOps = true)
    (hc2 : st.is_gray = false → img.is_grayscale pillowOps =
      ((st.base_image_data.getD img.current_data).is2d || img.colorModelGray)) :
    (ImageService.apply_processing_parameters pillowOps
      (ImageService.apply_processing_parameters pillowOps st p).2 p).2.currentData =
    (ImageService.apply_processing_parameters pillowOps st p).2.currentData := by
  rw [apply_eq_fromBase pillowOps st img p hci hv, applyFromBase_spec]
  by_cases hok : okChan (st.base_image_data.getD img.current_data) = true
  · by_cases hd : p.rotation - st.current_processing_params.rotation ≠ 0
    · by_cases hgood : goodAngle (p.rotation - st.current_processing_params.rotation)
      · by_cases hg : st.is_gray = true
        · -- rotation applied, grayscale forcing applied; both calls succeed
          have hgs : img.is_grayscale pillowOps = true := hc1 hg
          simp [fromBaseSpec, hok, hd, hgood, hg]
          rw [apply_second _ _ p rfl hv rfl]
          simp [currentData_commit, ImageService.commit, is_grayscale_update, PillowImageProcessor.is2d_grayPure,
            PillowImageProcessor.okChan_rotPure, hok, hg, hgs, bcsPure_rotPure,
            ServiceState.currentData, current_data_update]
        · -- rotation applied, no grayscale forcing
          have hgs := hc2 (by simpa using hg)
          simp [fromBaseSpec, hok, hd, hgood, hg]
          rw [apply_second _ _ p rfl hv rfl]
          simp [currentData_commit, ImageService.commit, is_grayscale_update, PillowImageProcessor.is2d_rotPure,
            is2d_bcsPure, PillowImageProcessor.okChan_rotPure, hok, hg, ← hgs,
            bcsPure_rotPure, ServiceState.currentData, current_data_update]
      · -- rotate raises on the bad angle; both calls fail identically
        simp [fromBaseSpec, hok, hd, hgood]
        rw [apply_eq_fromBase pillowOps
          { current_image := st.current_image, is_gray := st.is_gray,
            current_processing_params := st.current_processing_params,
            base_image_data := some (st.base_image_data.getD img.current_data) }
          img p hci hv, applyFromBase_spec]
        simp [fromBaseSpec, hok, hd, hgood, ServiceState.currentData, hci]
    · by_cases hg : st.is_gray = true
      · -- no rotation, grayscale forcing applied
        have hgs : img.is_grayscale pillowOps = true := hc1 hg
        simp [fromBaseSpec, hok, hd, hg]
        rw [apply_second _ _ p rfl hv rfl]
        simp [currentData_commit, ImageService.commit, is_grayscale_update, PillowImageProcessor.is2d_grayPure,
          hok, hg, hgs, ServiceState.currentData, current_data_update]
      · -- no rotation, no grayscale forcing
        have hgs := hc2 (by simpa using hg)
        simp [fromBaseSpec, hok, hd, hg]
        rw [apply_second _ _ p rfl hv rfl]
        simp [currentData_commit, ImageService.commit, is_grayscale_update, is2d_bcsPure, hok, hg, ← hgs,
          ServiceState.currentData, current_data_update]
  · by_cases hact : bcsActive (img.is_grayscale pillowOps) p
    · -- a value-active stage raises on the bad shape; both calls fail identically
      simp [fromBaseSpec, hok, hact]
      rw [apply_eq_fromBase pillowOps
          { current_image := st.current_image, is_gray := st.is_gray,
            current_processing_params := st.current_processing_params,
            base_image_data := some (st.base_image_data.getD img.current_data) }
          img p hci hv, applyFromBase_spec]
      simp [fromBaseSpec, hok, hact, ServiceState.currentData, hci]
    · by_cases hd : p.rotation - st.current_processing_params.rotation ≠ 0
      · by_cases hgood : goodAngle (p.rotation - st.current_processing_params.rotation)
        · by_cases hg : st.is_gray = true
          · -- every stage skipped, rotation applied, grayscale forcing fails;
            -- the base is rotated but both calls leave the current raster alone
            simp [fromBaseSpec, hok, hact, hd, hgood, hg]
            rw [apply_eq_fromBase pillowOps
                  { current_image := st.current_image, is_gray := true,
                    current_processing_params := st.current_processing_params,
                    base_image_data :=
                      some (PillowImageProcessor.rotPure
                        (p.rotation - st.current_processing_params.rotation)
                        (st.base_image_data.getD img.current_data)) }
                  img p hci hv, applyFromBase_spec]
            simp [fromBaseSpec, hok, hact, hd, hgood, hg, PillowImageProcessor.okChan_rotPure,
              ServiceState.currentData, hci]
          · -- every stage skipped, rotation applied, success
            have hgs := hc2 (by simpa using hg)
            simp [fromBaseSpec, hok, hact, hd, hgood, hg]
            rw [apply_second _ _ p rfl hv rfl]
            simp [currentData_commit, ImageService.commit, is_grayscale_update, PillowImageProcessor.is2d_rotPure,
              PillowImageProcessor.okChan_rotPure, hok, hact, hg, ← hgs, ServiceState.currentData, current_data_update]
        · -- rotate raises on the bad angle; both calls fail identically
          simp [fromBaseSpec, hok, hact, hd, hgood]
          rw [apply_eq_fromBase pillowOps
          { current_image := st.current_image, is_gray := st.is_gray,
            current_processing_params := st.current_processing_params,
            base_image_data := some (st.base_image_data.getD img.current_data) }
          img p hci hv, applyFromBase_spec]
          simp [fromBaseSpec, hok, hact, hd, hgood, ServiceState.currentData, hci]
      · by_cases hg : st.is_gray = true
        · -- every stage skipped, no rotation, grayscale forcing fails
          simp [fromBaseSpec, hok, hact, hd, hg]
          rw [apply_eq_fromBase pillowOps
                { current_image := st.current_image, is_gray := true,
                  current_processing_params := st.current_processing_params,
                  base_image_data := some (st.base_image_data.getD img.current_data) }
                img p hci hv, applyFromBase_spec]
          simp [fromBaseSpec, hok, hact, hd, hg, ServiceState.currentData, hci]
        · -- everything skipped, success: current becomes the base both times
          have hgs := hc2 (by simpa using hg)
          simp [fromBaseSpec, hok, hact, hd, hg]
          rw [apply_second _ _ p rfl hv rfl]
          simp [currentData_commit, ImageService.commit, is_grayscale_update, hok, hact, hg, ← hgs,
            ServiceState.currentData, current_data_update]

theorem cState_first_call :
    ImageService.apply_processing_parameters pillowOps cState cParams =
      (true, ⟨some ⟨cRaster, gray58, false, true⟩, true, cParams, some cRaster⟩) := by
  norm_num [ImageService.apply_processing_parameters, ImageService.applyFromBase,
    ImageService.bcsStages, ImageService.applyFinish, ImageService.commit, pillowOps, cState,
    cParams, cImage, cRaster, gray58, PillowImageProcessor.adjust_saturation,
    PillowImageProcessor.satPure, PillowImageProcessor.convert_to_grayscale,
    PillowImageProcessor.grayPure, PyImage.is_grayscale, PyImage.update_data, NDRaster.is2d,
    ImageProcessingParameters.validate, ImageProcessingParameters.init, clampTrunc, pilLpx,
    pilL, chanAt, npLuma, Mat.map, Fin.is_lt, cPix, exceptBind_ok, Int.toNat_ofNat]
  funext i j
  decide

theorem cState_second_call :
    ImageService.apply_processing_parameters pillowOps
      ⟨some ⟨cRaster, gray58, false, true⟩, true, cParams, some cRaster⟩ cParams =
      (true, ⟨some ⟨cRaster, gray59, false, true⟩, true, cParams, some cRaster⟩) := by
  norm_num [ImageService.apply_processing_parameters, ImageService.applyFromBase,
    ImageService.bcsStages, ImageService.applyFinish, ImageService.commit, pillowOps, cParams,
    cRaster, gray58, gray59, PillowImageProcessor.adjust_saturation,
    PillowImageProcessor.satPure, PillowImageProcessor.convert_to_grayscale,
    PillowImageProcessor.grayPure, PyImage.is_grayscale, PyImage.update_data, NDRaster.is2d,
    ImageProcessingParameters.validate, ImageProcessingParameters.init, clampTrunc, pilLpx,
    pilL, chanAt, npLuma, Mat.map, Fin.is_lt, cPix, exceptBind_ok, Int.toNat_ofNat]

/-- C1 counterexample: on the reachable state `cState` (grayscale flag set
while the current raster is still 3-D, as produced by the
tonal-correction fast path after a grayscale conversion) with the valid
parameter set `saturation = 0`, two applications differ bitwise from one:
the first call runs saturation on the color base and then forces
grayscale (pixel 58), the second call sees a 2-D current raster, skips
saturation, and grayscales the base directly (pixel 59). -/
theorem apply_idempotence_counterexample :
    (ImageService.apply_processing_parameters pillowOps
      (ImageService.apply_processing_parameters pillowOps cState cParams).2
      cParams).2.currentData ≠
    (ImageService.apply_processing_parameters pillowOps cState cParams).2.currentData := by
  rw [cState_first_call]
  show (ImageService.apply_processing_parameters pillowOps
      ⟨some ⟨cRaster, gray58, false, true⟩, true, cParams, some cRaster⟩ cParams).2.currentData ≠ _
  rw [cState_second_call]
  decide

/-- C1 amended witness: idempotence at a concrete consistent state (color
image, grayscale flag clear, rotation by 90). -/
theorem apply_idempotent_on_consistent_states_witness :
    (ImageService.apply_processing_parameters pillowOps
      (ImageService.apply_processing_parameters pillowOps
        ⟨some cImage, false, ImageProcessingParameters.init, some cRaster⟩ ⟨0, 1, 1, 90⟩).2
      ⟨0, 1, 1, 90⟩).2.currentData =
    (ImageService.apply_processing_parameters pillowOps
      ⟨some cImage, false, ImageProcessingParameters.init, some cRaster⟩ ⟨0, 1, 1, 90⟩).2.currentData :=
  apply_idempotent_on_consistent_states
    ⟨some cImage, false, ImageProcessingParameters.init, some cRaster⟩ cImage ⟨0, 1, 1, 90⟩
    rfl (by decide) (by decide) (by decide)

/-! ### C4: state after a mid-pipeline failure -/

theorem rotate_image_ok_eq (r : NDRaster) (a : ℤ) (x : NDRaster)
    (h : PillowImageProcessor.rotate_image r a = .ok x) :
    x = PillowImageProcessor.rotPure a r := by
  unfold PillowImageProcessor.rotate_image at h
  unfold PillowImageProcessor.rotPure
  split_ifs at h ⊢ with h0 h90 h180 h270 h360 <;>
    first
    | (injection h with h1; exact h1.symm)
    | (injection h with h1; rw [← h1, NDRaster.rot90_fourfold_id])

theorem applyFinish_failure {ρ : Type} (P : RasterOps ρ) (st : ServiceState ρ)
    (img : PyImage ρ) (d : ρ) (p : ImageProcessingParameters)
    (h : (ImageService.applyFinish P st img d p).1 = false) :
    ImageService.applyFinish P st img d p = (false, st) := by
  unfold ImageService.applyFinish at h ⊢
  by_cases hg : st.is_gray = true
  · rw [if_pos hg] at h ⊢
    cases hc : P.convert_to_grayscale d with
    | error e => rfl
    | ok d5 => rw [hc] at h; simp at h
  · rw [if_neg hg] at h
    simp at h

theorem applyFromBase_failure (st : ServiceState NDRaster) (img : PyImage NDRaster)
    (b0 : NDRaster) (p : ImageProcessingParameters) (res : ServiceState NDRaster)
    (h : ImageService.applyFromBase pillowOps st img b0 p = (false, res)) :
    res.current_image = st.current_image ∧
    res.current_processing_params = st.current_processing_params ∧
    res.is_gray = st.is_gray ∧
    (res.base_image_data = st.base_image_data ∨
     res.base_image_data =
       some (PillowImageProcessor.rotPure
         (p.rotation - st.current_processing_params.rotation) b0)) := by
  unfold ImageService.applyFromBase at h
  split at h
  · injection h with h1 h2
    subst h2
    exact ⟨rfl, rfl, rfl, Or.inl rfl⟩
  · rename_i d3 hbcs
    split at h
    · split at h
      · injection h with h1 h2
        subst h2
        exact ⟨rfl, rfl, rfl, Or.inl rfl⟩
      · rename_i d4 hr1
        split at h
        · injection h with h1 h2
          subst h2
          exact ⟨rfl, rfl, rfl, Or.inl rfl⟩
        · rename_i b1 hr2
          have hfail : (ImageService.applyFinish pillowOps
              { st with base_image_data := some b1 } img d4 p).1 = false := by
            rw [h]
          have heq := applyFinish_failure pillowOps _ img d4 p hfail
          rw [heq] at h
          injection h with h1 h2
          subst h2
          refine ⟨rfl, rfl, rfl, Or.inr ?_⟩
          show some b1 = _
          rw [rotate_image_ok_eq b0 _ b1 hr2]
    · have hfail : (ImageService.applyFinish pillowOps st img d3 p).1 = false := by
        rw [h]
      have heq := applyFinish_failure pillowOps st img d3 p hfail
      rw [heq] at h
      injection h with h1 h2
      subst h2
      exact ⟨rfl, rfl, rfl, Or.inl rfl⟩

/-- C4 counterexample: a state whose base raster is a 1×2 two-channel
array (a shape the forced grayscale conversion rejects), grayscale flag
set, with a requested rotation of 90: the pipeline fails (returns
`False`) and keeps the previous current raster, but the base raster has
already been rotated, so the state is *not* rolled back to its pre-call
snapshot. -/
theorem apply_failure_not_rolled_back :
    (ImageService.apply_processing_parameters pillowOps
      ⟨some ⟨.g2 (Mat.mk 1 1 (fun _ _ => 0)), .g2 (Mat.mk 1 1 (fun _ _ => 0)), false, false⟩,
       true, .init, some (.c3 2 (Mat.mk 1 2 (fun _ j _ => j.val)))⟩
      ⟨0, 1, 1, 90⟩).1 = false ∧
    (ImageService.apply_processing_parameters pillowOps
      ⟨some ⟨.g2 (Mat.mk 1 1 (fun _ _ => 0)), .g2 (Mat.mk 1 1 (fun _ _ => 0)), false, false⟩,
       true, .init, some (.c3 2 (Mat.mk 1 2 (fun _ j _ => j.val)))⟩
      ⟨0, 1, 1, 90⟩).2.current_image =
      some ⟨.g2 (Mat.mk 1 1 (fun _ _ => 0)), .g2 (Mat.mk 1 1 (fun _ _ => 0)), false, false⟩ ∧
    (ImageService.apply_processing_parameters pillowOps
      ⟨some ⟨.g2 (Mat.mk 1 1 (fun _ _ => 0)), .g2 (Mat.mk 1 1 (fun _ _ => 0)), false, false⟩,
       true, .init, some (.c3 2 (Mat.mk 1 2 (fun _ j _ => j.val)))⟩
      ⟨0, 1, 1, 90⟩).2.base_image_data ≠
      some (.c3 2 (Mat.mk 1 2 (fun _ j _ => j.val))) := by decide

/-- C4 amended: when `apply_processing_parameters` fails mid-pipeline it
returns `False` keeping the previous current raster, the stored
parameters and the grayscale flag intact, but the base raster is not
always rolled back: it may have been defaulted from the current raster
(when it was unset before the call), and when the failure occurs in the
final grayscale-forcing stage after a nonzero rotation delta the base
keeps the already-applied rotation. -/
theorem apply_failure_partial_rollback (st : ServiceState NDRaster)
    (p : ImageProcessingParameters) (res : ServiceState NDRaster)
    (h : ImageService.apply_processing_parameters pillowOps st p = (false, res)) :
    res.current_image = st.current_image ∧
    res.current_processing_params = st.current_processing_params ∧
    res.is_gray = st.is_gray ∧
    (res.base_image_data = st.base_image_data ∨
     res.base_image_data = st.defaultedBase ∨
     res.base_image_data = st.defaultedBase.map
       (PillowImageProcessor.rotPure (p.rotation - st.current_processing_params.rotation))) := by
  unfold ImageService.apply_processing_parameters at h
  split at h
  · injection h with h1 h2
    subst h2
    exact ⟨rfl, rfl, rfl, Or.inl rfl⟩
  · rename_i img hci
    by_cases hv : p.validate = true
    · rw [if_pos hv] at h
      split at h
      · rename_i hbi
        have hres := applyFromBase_failure _ img img.current_data p res h
        refine ⟨hres.1, hres.2.1, hres.2.2.1, ?_⟩
        have hdb : st.defaultedBase = some img.current_data := by
          unfold ServiceState.defaultedBase
          rw [hci, hbi]
          rfl
        rcases hres.2.2.2 with hb | hb
        · right; left
          rw [hb, hdb]
        · right; right
          rw [hb, hdb]
          rfl
      · rename_i b hbi
        have hres := applyFromBase_failure st img b p res h
        refine ⟨hres.1, hres.2.1, hres.2.2.1, ?_⟩
        have hdb : st.defaultedBase = some b := by
          unfold ServiceState.defaultedBase
          rw [hci, hbi]
          rfl
        rcases hres.2.2.2 with hb | hb
        · exact Or.inl hb
        · right; right
          rw [hb, hdb]
          rfl
    · rw [if_neg hv] at h
      injection h with h1 h2
      subst h2
      exact ⟨rfl, rfl, rfl, Or.inl rfl⟩

/-- C4 amended witness: the partial-rollback characterization applied to a
concrete failed call (two-channel base, grayscale forcing fails after a
270-degree rotation delta; the result's base is the rotated base). -/
theorem apply_failure_partial_rollback_witness :
    (⟨some ⟨.g2 (Mat.mk 1 1 (fun _ _ => 5)), .g2 (Mat.mk 1 1 (fun _ _ => 5)), false, false⟩,
      true, ImageProcessingParameters.init,
      some ((NDRaster.c3 2 (Mat.mk 2 1 (fun i _ _ => i.val))).rot90.rot90.rot90)⟩ :
        ServiceState NDRaster).base_image_data =
      (⟨some ⟨.g2 (Mat.mk 1 1 (fun _ _ => 5)), .g2 (Mat.mk 1 1 (fun _ _ => 5)), false, false⟩,
        true, ImageProcessingParameters.init,
        some (.c3 2 (Mat.mk 2 1 (fun i _ _ => i.val)))⟩ : ServiceState NDRaster).base_image_data ∨
    (⟨some ⟨.g2 (Mat.mk 1 1 (fun _ _ => 5)), .g2 (Mat.mk 1 1 (fun _ _ => 5)), false, false⟩,
      true, ImageProcessingParameters.init,
      some ((NDRaster.c3 2 (Mat.mk 2 1 (fun i _ _ => i.val))).rot90.rot90.rot90)⟩ :
        ServiceState NDRaster).base_image_data =
      (⟨some ⟨.g2 (Mat.mk 1 1 (fun _ _ => 5)), .g2 (Mat.mk 1 1 (fun _ _ => 5)), false, false⟩,
        true, ImageProcessingParameters.init,
        some (.c3 2 (Mat.mk 2 1 (fun i _ _ => i.val)))⟩ : ServiceState NDRaster).defaultedBase ∨
    (⟨some ⟨.g2 (Mat.mk 1 1 (fun _ _ => 5)), .g2 (Mat.mk 1 1 (fun _ _ => 5)), false, false⟩,
      true, ImageProcessingParameters.init,
      some ((NDRaster.c3 2 (Mat.mk 2 1 (fun i _ _ => i.val))).rot90.rot90.rot90)⟩ :
        ServiceState NDRaster).base_image_data =
      ((⟨some ⟨.g2 (Mat.mk 1 1 (fun _ _ => 5)), .g2 (Mat.mk 1 1 (fun _ _ => 5)), false, false⟩,
        true, ImageProcessingParameters.init,
        some (.c3 2 (Mat.mk 2 1 (fun i _ _ => i.val)))⟩ : ServiceState NDRaster)).defaultedBase.map
        (PillowImageProcessor.rotPure ((270 : ℤ) - 0)) :=
  (apply_failure_partial_rollback
    ⟨some ⟨.g2 (Mat.mk 1 1 (fun _ _ => 5)), .g2 (Mat.mk 1 1 (fun _ _ => 5)), false, false⟩,
     true, ImageProcessingParameters.init,
     some (.c3 2 (Mat.mk 2 1 (fun i _ _ => i.val)))⟩
    ⟨0, 1, 1, 270⟩
    ⟨some ⟨.g2 (Mat.mk 1 1 (fun _ _ => 5)), .g2 (Mat.mk 1 1 (fun _ _ => 5)), false, false⟩,
     true, ImageProcessingParameters.init,
     some ((NDRaster.c3 2 (Mat.mk 2 1 (fun i _ _ => i.val))).rot90.rot90.rot90)⟩
    (by decide)).2.2.2

/-! ### C3: invalid parameter sets are rejected atomically -/

/-- C3: for every service state and every parameter set failing
`validate`, `apply_processing_parameters` returns `False` and leaves the
whole state (current raster, base raster, stored parameters, grayscale
flag) unchanged. -/
theorem apply_invalid_params_state_unchanged (st : ServiceState NDRaster)
    (p : ImageProcessingParameters) (h : p.validate = false) :
    ImageService.apply_processing_parameters pillowOps st p = (false, st) := by
  unfold ImageService.apply_processing_parameters
  cases hci : st.current_image with
  | none => rfl
  | some img => simp only [h, Bool.false_eq_true, if_false]

/-- C3 witness: a loaded 1×1 grayscale state with brightness 200 (invalid)
is rejected with the state returned untouched. -/
theorem apply_invalid_params_state_unchanged_witness :
    ImageService.apply_processing_parameters pillowOps
      ⟨some ⟨.g2 (Mat.mk 1 1 (fun _ _ => 3)), .g2 (Mat.mk 1 1 (fun _ _ => 3)), false, false⟩,
       false, .init, some (.g2 (Mat.mk 1 1 (fun _ _ => 3)))⟩
      ⟨200, 1, 1, 0⟩ =
    (false,
      ⟨some ⟨.g2 (Mat.mk 1 1 (fun _ _ => 3)), .g2 (Mat.mk 1 1 (fun _ _ => 3)), false, false⟩,
       false, .init, some (.g2 (Mat.mk 1 1 (fun _ _ => 3)))⟩) :=
  apply_invalid_params_state_unchanged _ _ (by decide)

/-! ### C5: reset restores the original -/

/-- C5: whenever an image is loaded, `reset_to_original` succeeds and sets
the current raster and the base raster to the original raster from load
time (bit-identical), resets the parameter set to the identity defaults
and clears the grayscale flag. -/
theorem reset_restores_original {ρ : Type} (st : ServiceState ρ) (img : PyImage ρ)
    (h : st.current_image = some img) :
    ImageService.reset_to_original st =
      (true,
        ⟨some ⟨img.original_data, img.original_data, img.colorModelGray, false⟩,
         false, ImageProcessingParameters.init, some img.original_data⟩) := by
  unfold ImageService.reset_to_original
  rw [h]
  rfl

/-! ### C2: the order of the pipeline stages -/

theorem free_applyFromBase (b2d : Bool) (st : ServiceState FreeRaster)
    (img : PyImage FreeRaster) (b0 : FreeRaster) (p : ImageProcessingParameters) :
    (ImageService.applyFromBase (freeOps b2d) st img b0 p).1 = true ∧
    (ImageService.applyFromBase (freeOps b2d) st img b0 p).2.currentData =
      some (codeOrderCurrent st.is_gray (img.is_grayscale (freeOps b2d)) p
        (p.rotation - st.current_processing_params.rotation) b0) := by
  unfold ImageService.applyFromBase ImageService.bcsStages ImageService.applyFinish
  generalize img.is_grayscale (freeOps b2d) = gs
  by_cases h1 : p.brightness ≠ 0 <;> by_cases h2 : p.contrast ≠ 1 <;>
    by_cases h3 : gs = false ∧ p.saturation ≠ 1 <;>
    by_cases hd : p.rotation - st.current_processing_params.rotation ≠ 0 <;>
    by_cases hg : st.is_gray = true <;>
    simp [codeOrderCurrent, freeOps, Except.bind, PyImage.update_data,
      ServiceState.currentData, ImageService.commit, h1, h2, h3, hd, hg]

/-- C2 counterexample: on a state recording the processor calls (image
earlier converted to grayscale, base raster set, stored rotation 0) with
parameters `brightness = 5, rotation = 90`, the pipeline produces the call
history grayscale-forcing(rotate(brightness(base))) — grayscale-forcing
happens last, after rotation — which differs from the history
rotate(brightness(grayscale-forcing(base))) prescribed by the claimed
stage order (grayscale first, rotation last). -/
theorem apply_stage_order_counterexample :
    (ImageService.apply_processing_parameters (freeOps true)
      ⟨some ⟨.fbase, .fbase, false, false⟩, true, .init, some .fbase⟩
      ⟨5, 1, 1, 90⟩).2.currentData =
      some (.fgray (.frot 90 (.fbright 5 .fbase))) ∧
    (FreeRaster.fgray (.frot 90 (.fbright 5 .fbase))) ≠
      specOrderCurrent true true ⟨5, 1, 1, 90⟩ 90 .fbase := by decide

/-- C2 amended: `apply_processing_parameters` recomputes the current
raster from the base by applying the stages in the fixed order
brightness → contrast → saturation (skipped for grayscale images) →
rotation by the delta against the stored rotation → grayscale-forcing
*last* (when the image was explicitly converted to grayscale earlier);
grayscale-forcing is not first and rotation is not last.  Stated over the
recording instantiation of the processor interface, whose call history is
exactly `codeOrderCurrent`. -/
theorem apply_stage_order (b2d : Bool) (st : ServiceState FreeRaster)
    (img : PyImage FreeRaster) (p : ImageProcessingParameters)
    (h : st.current_image = some img) (hv : p.validate = true) :
    (ImageService.apply_processing_parameters (freeOps b2d) st p).2.currentData =
      some (codeOrderCurrent st.is_gray (img.is_grayscale (freeOps b2d)) p
        (p.rotation - st.current_processing_params.rotation)
        (st.base_image_data.getD img.current_data)) := by
  obtain ⟨ci, ig, cp, bi⟩ := st
  simp only at h
  subst h
  unfold ImageService.apply_processing_parameters
  simp only [hv, if_true]
  cases bi with
  | none => exact (free_applyFromBase b2d _ img img.current_data p).2
  | some b => exact (free_applyFromBase b2d _ img b p).2

/-- C2 amended witness: the order characterization applied to a concrete
recorded run (all stages active). -/
theorem apply_stage_order_witness :
    (ImageService.apply_processing_parameters (freeOps false)
      ⟨some ⟨.fbase, .fbase, false, false⟩, true, .init, some .fbase⟩
      ⟨5, 2, 0, 90⟩).2.currentData =
      some (codeOrderCurrent true
        ((PyImage.mk FreeRaster.fbase FreeRaster.fbase false false).is_grayscale (freeOps false))
        ⟨5, 2, 0, 90⟩ 90 FreeRaster.fbase) :=
  apply_stage_order false _ _ _ rfl (by decide)

/-- C5 witness: resetting a concrete modified state (current differs from
original, nontrivial parameters, grayscale flag set) restores everything
from the original raster. -/
theorem reset_restores_original_witness :
    ImageService.reset_to_original
      (⟨some ⟨.g2 (Mat.mk 1 1 (fun _ _ => 9)), .g2 (Mat.mk 1 1 (fun _ _ => 4)), false, true⟩,
        true, ⟨50, 2, 1, 90⟩, some (.g2 (Mat.mk 1 1 (fun _ _ => 4)))⟩ : ServiceState NDRaster) =
    (true,
      ⟨some ⟨.g2 (Mat.mk 1 1 (fun _ _ => 9)), .g2 (Mat.mk 1 1 (fun _ _ => 9)), false, false⟩,
       false, ImageProcessingParameters.init, some (.g2 (Mat.mk 1 1 (fun _ _ => 9)))⟩) :=
  reset_restores_original _ _ rfl

end CVTech
